import Mathlib

/-!
Verification of the WebSocket test server (`websocket-test-server.py`).

The development shallowly embeds the per-connection handler
(`handle_client`), the telemetry-extraction block, the acknowledgment
path, and the shared registry / message counter.  External effects
(the result of `json.loads`, the outcome of `websocket.send`, the
current wall-clock time) are inputs of the embedded functions.
-/

/-- JSON values, the possible results of `json.loads`.  Numbers are
modelled as rationals (values are only moved verbatim, never computed
with). -/
inductive Json where
  | null : Json
  | bool (b : Bool) : Json
  | num (q : ℚ) : Json
  | str (s : String) : Json
  | arr (xs : List Json) : Json
  | obj (kvs : List (String × Json)) : Json

/-- Python exceptions that the handler body can raise (other than
`ConnectionClosed`, which is tracked separately). -/
inductive PyErr where
  | typeError : PyErr
  | keyError : PyErr
  | attrError : PyErr
deriving DecidableEq

/-- First-match lookup in the key/value list of a JSON object (Python
dicts have unique keys, so first-match agrees with dict lookup). -/
def jsonLookup : List (String × Json) → String → Option Json
  | [], _ => none
  | (k, v) :: rest, key => if k == key then some v else jsonLookup rest key

/-- Python `v == "lit"` for a JSON value `v`: true exactly when `v` is
that string (no other JSON value compares equal to a `str`). -/
def isStrEq (v : Json) (s : String) : Bool :=
  match v with
  | .str t => t == s
  | _ => false

/-- Whether `needle` is a prefix of `hay` (character lists). -/
def charsPrefixOf : List Char → List Char → Bool
  | [], _ => true
  | _ :: _, [] => false
  | a :: as, b :: bs => a == b && charsPrefixOf as bs

/-- Whether `needle` occurs as a contiguous substring of `hay`
(Python `needle in hay` for strings). -/
def charsSubstrOf (needle : List Char) : List Char → Bool
  | [] => charsPrefixOf needle []
  | b :: bs => charsPrefixOf needle (b :: bs) || charsSubstrOf needle bs

/-- Python `key in x` on a JSON value: key membership for dicts,
substring test for strings, element equality for lists, and a
`TypeError` for null / booleans / numbers. -/
def pyContains (key : String) : Json → Except PyErr Bool
  | .obj kvs => .ok (jsonLookup kvs key).isSome
  | .str s => .ok (charsSubstrOf key.data s.data)
  | .arr xs => .ok (xs.any (fun v => isStrEq v key))
  | .null => .error .typeError
  | .bool _ => .error .typeError
  | .num _ => .error .typeError

/-- Python `x[key]` for a string key: dict lookup (`KeyError` when the
key is absent), `TypeError` on every non-dict value. -/
def pyIndex (x : Json) (key : String) : Except PyErr Json :=
  match x with
  | .obj kvs =>
    match jsonLookup kvs key with
    | some v => .ok v
    | none => .error .keyError
  | _ => .error .typeError

/-- Python `x.get(key, default)`: defaulting dict lookup;
`AttributeError` on non-dict values (which have no `get` method). -/
def pyGetD (x : Json) (key : String) (default : Json) : Except PyErr Json :=
  match x with
  | .obj kvs => .ok ((jsonLookup kvs key).getD default)
  | _ => .error .attrError

/-- The telemetry record printed by the extraction block: topic
(defaulted), latitude, longitude, and the optional altitude. -/
structure GPSData where
  topic : Json
  latitude : Json
  longitude : Json
  altitude : Option Json

/-- The GPS-extraction block of `handle_client` (source lines 35-43):

```
if 'op' in data and data['op'] == 'publish' and 'msg' in data:
    msg = data['msg']
    if 'latitude' in msg and 'longitude' in msg:
        ... data.get('topic', 'N/A') ... msg['latitude'] ...
        ... msg['longitude'] ...
        if 'altitude' in msg: ... msg['altitude'] ...
```

`.ok none` means the shape did not match (no extraction); `.error e`
means the block raised a Python exception. -/
def extractGPS (data : Json) : Except PyErr (Option GPSData) :=
  match pyContains "op" data with
  | .error e => .error e
  | .ok false => .ok none
  | .ok true =>
    match pyIndex data "op" with
    | .error e => .error e
    | .ok opv =>
      if isStrEq opv "publish" then
        match pyContains "msg" data with
        | .error e => .error e
        | .ok false => .ok none
        | .ok true =>
          match pyIndex data "msg" with
          | .error e => .error e
          | .ok msg =>
            match pyContains "latitude" msg with
            | .error e => .error e
            | .ok false => .ok none
            | .ok true =>
              match pyContains "longitude" msg with
              | .error e => .error e
              | .ok false => .ok none
              | .ok true =>
                match pyGetD data "topic" (Json.str "N/A") with
                | .error e => .error e
                | .ok topicv =>
                  match pyIndex msg "latitude" with
                  | .error e => .error e
                  | .ok lat =>
                    match pyIndex msg "longitude" with
                    | .error e => .error e
                    | .ok lon =>
                      match pyContains "altitude" msg with
                      | .error e => .error e
                      | .ok true =>
                        match pyIndex msg "altitude" with
                        | .error e => .error e
                        | .ok alt => .ok (some ⟨topicv, lat, lon, some alt⟩)
                      | .ok false => .ok (some ⟨topicv, lat, lon, none⟩)
      else .ok none

/-- A wall-clock instant, as carried by Python's `datetime.now()`. -/
structure DateTime where
  year : Nat
  month : Nat
  day : Nat
  hour : Nat
  minute : Nat
  second : Nat
  microsecond : Nat

/-- The ASCII digit character for `n % 10`. -/
def digitChar10 (n : Nat) : Char :=
  match n % 10 with
  | 0 => '0'
  | 1 => '1'
  | 2 => '2'
  | 3 => '3'
  | 4 => '4'
  | 5 => '5'
  | 6 => '6'
  | 7 => '7'
  | 8 => '8'
  | _ => '9'

/-- Zero-padded two-digit rendering (`%02d` for in-range values). -/
def pad2 (n : Nat) : List Char := [digitChar10 (n / 10), digitChar10 n]

/-- Zero-padded four-digit rendering (`%04d` for in-range values). -/
def pad4 (n : Nat) : List Char :=
  [digitChar10 (n / 1000), digitChar10 (n / 100), digitChar10 (n / 10), digitChar10 n]

/-- Zero-padded six-digit rendering (`%06d` for in-range values). -/
def pad6 (n : Nat) : List Char :=
  [digitChar10 (n / 100000), digitChar10 (n / 10000), digitChar10 (n / 1000),
   digitChar10 (n / 100), digitChar10 (n / 10), digitChar10 n]

/-- `datetime.isoformat()`: `YYYY-MM-DDTHH:MM:SS`, with `.ffffff`
appended exactly when the microsecond field is nonzero. -/
def isoformat (dt : DateTime) : String :=
  String.mk (pad4 dt.year ++ '-' :: pad2 dt.month ++ '-' :: pad2 dt.day ++
    'T' :: pad2 dt.hour ++ ':' :: pad2 dt.minute ++ ':' :: pad2 dt.second ++
    (if dt.microsecond = 0 then [] else '.' :: pad6 dt.microsecond))

/-- ASCII digit test. -/
def isAsciiDigit (c : Char) : Bool := '0' ≤ c && c ≤ '9'

/-- Shape test for an ISO-8601 combined date-time,
`YYYY-MM-DDTHH:MM:SS` optionally followed by `.ffffff`. -/
def isoShape (cs : List Char) : Bool :=
  match cs with
  | [y1, y2, y3, y4, '-', m1, m2, '-', d1, d2, 'T',
     h1, h2, ':', n1, n2, ':', s1, s2] =>
    [y1, y2, y3, y4, m1, m2, d1, d2, h1, h2, n1, n2, s1, s2].all isAsciiDigit
  | [y1, y2, y3, y4, '-', m1, m2, '-', d1, d2, 'T',
     h1, h2, ':', n1, n2, ':', s1, s2, '.', u1, u2, u3, u4, u5, u6] =>
    [y1, y2, y3, y4, m1, m2, d1, d2, h1, h2, n1, n2, s1, s2,
     u1, u2, u3, u4, u5, u6].all isAsciiDigit
  | _ => false

/-- A string is ISO-8601-shaped when its characters are. -/
def isIso8601 (s : String) : Bool := isoShape s.data

/-- An incoming frame: text, or binary (`bytes`). -/
inductive Payload where
  | text (s : String) : Payload
  | binary (bs : List Nat) : Payload

/-- The raw-text display expression of source line 47,
`message[:200] + ('...' if len(message) > 200 else '')`.
For a `bytes` payload the concatenation `bytes + str` raises
`TypeError`. -/
def rawTextDisplay : Payload → Except PyErr String
  | .text s => .ok (s.take 200 ++ (if s.length > 200 then "..." else ""))
  | .binary _ => .error .typeError

/-- The acknowledgment object of source lines 51-55. -/
structure Ack where
  status : String
  message_id : Nat
  timestamp : String

/-- One received frame together with the environment facts the loop
body consumes: the payload, the outcome of `json.loads` on it
(`none` means `JSONDecodeError` was raised), the wall-clock time when
the acknowledgment is built, and the outcome of `websocket.send`
(`some (code, reason)` means the send raised
`ConnectionClosed(code, reason)`). -/
structure MsgEvent where
  payload : Payload
  decoded : Option Json
  now : DateTime
  sendResult : Option (Nat × String)

/-- How one iteration of the loop body ends. -/
inductive StepExit where
  | normal : StepExit
  | connClosed (code : Nat) (reason : String) : StepExit
  | raised (e : PyErr) : StepExit
deriving DecidableEq

/-- Observable outcome of one iteration of the loop body:
the counter value after the iteration, whether the decoded structure
was displayed, the extracted telemetry (if any), the raw-text display
(if any), the acknowledgments delivered (none or one), and how the
iteration ended. -/
structure StepResult where
  count : Nat
  structShown : Bool
  gps : Option GPSData
  rawShown : Option String
  acks : List Ack
  exit : StepExit

/-- The acknowledgment path of source lines 50-57: when `--respond`
is set, build the response from the current counter and clock and
send it; a failing send raises `ConnectionClosed`. -/
def ackPhase (respond : Bool) (c : Nat) (now : DateTime)
    (sr : Option (Nat × String)) (structShown : Bool) (gps : Option GPSData)
    (rawShown : Option String) : StepResult :=
  if respond then
    match sr with
    | none => ⟨c, structShown, gps, rawShown, [⟨"received", c, isoformat now⟩], .normal⟩
    | some (code, reason) => ⟨c, structShown, gps, rawShown, [], .connClosed code reason⟩
  else ⟨c, structShown, gps, rawShown, [], .normal⟩

/-- One iteration of the `async for` body (source lines 26-57):
increment the counter, then either display the decoded structure and
run the extraction block, or display the payload as raw text; finally
run the acknowledgment path. -/
def processMessage (respond : Bool) (count : Nat) (ev : MsgEvent) : StepResult :=
  let c := count + 1
  match ev.decoded with
  | some data =>
    match extractGPS data with
    | .error e => ⟨c, true, none, none, [], .raised e⟩
    | .ok g => ackPhase respond c ev.now ev.sendResult true g none
  | none =>
    match rawTextDisplay ev.payload with
    | .error e => ⟨c, false, none, none, [], .raised e⟩
    | .ok s => ackPhase respond c ev.now ev.sendResult false none (some s)

/-- An event on one connection: a frame arrives, or the peer's close
frame arrives with its code and reason.  On a close, the `websockets`
iterator driving the `async for` raises `ConnectionClosedOK` for the
clean codes 1000 and 1001 — which the iterator machinery swallows, so
the loop simply ends — and `ConnectionClosedError` for every other
code, which propagates to the handler's `except` clause. -/
inductive ConnEvent where
  | msg (ev : MsgEvent) : ConnEvent
  | close (code : Nat) (reason : String) : ConnEvent

/-- Whether a close code is a clean close: the `websockets` iterator
ends the `async for` normally (swallowing `ConnectionClosedOK`) for
codes 1000 (normal closure) and 1001 (going away). -/
def cleanClose (code : Nat) : Bool := code == 1000 || code == 1001

/-- How the handler's `try` block ended: `reading` when the event
list ran out with the loop still waiting; `finished` when the
`async for` ended normally on a clean close (nothing reaches line 59,
so no code or reason is observed); `closed` when a
`ConnectionClosed` was caught at line 59 (abnormal close, or any
`ConnectionClosed` raised by a send inside the loop body); `errored`
when any other exception was caught at line 61. -/
inductive Termination where
  | reading : Termination
  | finished : Termination
  | closed (code : Nat) (reason : String) : Termination
  | errored (e : PyErr) : Termination
deriving DecidableEq

/-- Final observation of one handler's loop: counter value, delivered
acknowledgments (in order), and how the loop ended (`reading` when
the event list ran out with the loop still waiting). -/
structure HandlerResult where
  count : Nat
  acks : List Ack
  termination : Termination

/-- The receive loop of `handle_client` (source lines 25-62): iterate
the loop body over incoming frames.  A clean close (codes 1000/1001)
ends the `async for` normally — its code and reason never reach the
handler; an abnormal close raises `ConnectionClosedError`, caught at
line 59 with code and reason observable.  A `ConnectionClosed`
raised by a failing send inside the loop body propagates directly
(not through the iterator) and is caught at line 59 whatever its
code.  Any other exception is caught at line 61. -/
def runHandler (respond : Bool) : Nat → List ConnEvent → HandlerResult
  | count, [] => ⟨count, [], .reading⟩
  | count, .close code reason :: _ =>
    if cleanClose code then ⟨count, [], .finished⟩
    else ⟨count, [], .closed code reason⟩
  | count, .msg ev :: rest =>
    let step := processMessage respond count ev
    match step.exit with
    | .normal =>
      let r := runHandler respond step.count rest
      ⟨r.count, step.acks ++ r.acks, r.termination⟩
    | .connClosed code reason => ⟨step.count, step.acks, .closed code reason⟩
    | .raised e => ⟨step.count, step.acks, .errored e⟩

/-- The display label of source line 18,
`f"Client-{len(connected_clients) + 1}"`. -/
def clientId (registrySize : Nat) : String :=
  "Client-" ++ toString (registrySize + 1)

/-- What `handle_client` leaves behind: the registry after the
`finally` block, the loop's result, and the label assigned on entry. -/
structure ClientResult where
  registry : Finset Nat
  result : HandlerResult
  label : String

/-- The whole of `handle_client` for one connection `conn` joining
registry `R`: compute the label from the registry size (line 18), add
the connection (line 21), run the receive loop, and in `finally`
remove the connection (line 64) — on every termination path. -/
def handleClient (R : Finset Nat) (conn : Nat) (respond : Bool)
    (count : Nat) (evs : List ConnEvent) : ClientResult :=
  let label := clientId R.card
  let R1 := insert conn R
  let res := runHandler respond count evs
  ⟨R1.erase conn, res, label⟩

/-- The shared global state of the server: `connected_clients` (a set
of connection identities) and `message_count` (source lines 12-13). -/
structure ServerState where
  connected_clients : Finset Nat
  message_count : Nat

/-- The state declared at module load: empty set, counter zero. -/
def initState : ServerState := ⟨∅, 0⟩

/-- Global events that touch the shared state: a connection is added
(line 21), a message is received on some connection (line 26), a
connection's `finally` block removes it (line 64). -/
inductive SysEvent where
  | connect (id : Nat) : SysEvent
  | recvMsg (id : Nat) : SysEvent
  | disconnect (id : Nat) : SysEvent

/-- Effect of one global event on the shared state. -/
def sysStep (s : ServerState) : SysEvent → ServerState
  | .connect id => { s with connected_clients := insert id s.connected_clients }
  | .recvMsg _ => { s with message_count := s.message_count + 1 }
  | .disconnect id => { s with connected_clients := s.connected_clients.erase id }

/-- Run a sequence of global events. -/
def runSys (s : ServerState) (evs : List SysEvent) : ServerState :=
  evs.foldl sysStep s

/-- Number of message receptions in an event sequence. -/
def numRecv : List SysEvent → Nat
  | [] => 0
  | .recvMsg _ :: rest => numRecv rest + 1
  | .connect _ :: rest => numRecv rest
  | .disconnect _ :: rest => numRecv rest

/-- The counter values observed after each reception in a trace. -/
def counterTrace (s : ServerState) : List SysEvent → List Nat
  | [] => []
  | e :: rest =>
    match e with
    | .recvMsg _ => (sysStep s e).message_count :: counterTrace (sysStep s e) rest
    | _ => counterTrace (sysStep s e) rest

/-- Run a trace while recording, for each `connect`, the connection
id and the label computed from the registry size at that moment
(source line 18 runs before line 21). -/
def runWithLabels (s : ServerState) : List SysEvent → ServerState × List (Nat × String)
  | [] => (s, [])
  | e :: rest =>
    let s' := sysStep s e
    let tail := runWithLabels s' rest
    match e with
    | .connect id => (tail.1, (id, clientId s.connected_clients.card) :: tail.2)
    | _ => tail

/-- Whether the loop body's display phase completes without raising:
the extraction block succeeds on a decoded structure, or the raw-text
display succeeds on an undecodable payload. -/
def processingOk (ev : MsgEvent) : Bool :=
  match ev.decoded with
  | some data =>
    match extractGPS data with
    | .ok _ => true
    | .error _ => false
  | none =>
    match rawTextDisplay ev.payload with
    | .ok _ => true
    | .error _ => false

lemma ackPhase_count (respond : Bool) (c : Nat) (now : DateTime)
    (sr : Option (Nat × String)) (sh : Bool) (g : Option GPSData)
    (raw : Option String) : (ackPhase respond c now sr sh g raw).count = c := by
  unfold ackPhase
  rcases respond with _ | _
  · rfl
  · rcases sr with _ | ⟨code, reason⟩ <;> rfl

lemma processMessage_count (respond : Bool) (c : Nat) (ev : MsgEvent) :
    (processMessage respond c ev).count = c + 1 := by
  unfold processMessage
  rcases ev with ⟨p, dec, now, sr⟩
  rcases dec with _ | data
  · rcases p with s | bs
    · simp [rawTextDisplay, ackPhase_count]
    · rfl
  · rcases h : extractGPS data with e | g
    · simp [h]
    · simp [h, ackPhase_count]

lemma digitChar10_isDigit (n : Nat) : isAsciiDigit (digitChar10 n) = true := by
  have h : n % 10 = 0 ∨ n % 10 = 1 ∨ n % 10 = 2 ∨ n % 10 = 3 ∨ n % 10 = 4 ∨
      n % 10 = 5 ∨ n % 10 = 6 ∨ n % 10 = 7 ∨ n % 10 = 8 ∨ n % 10 = 9 := by omega
  unfold digitChar10
  rcases h with h | h | h | h | h | h | h | h | h | h <;> rw [h] <;> rfl

lemma digitChar10_ge (n : Nat) : '0' ≤ digitChar10 n := by
  have h := digitChar10_isDigit n
  unfold isAsciiDigit at h
  exact of_decide_eq_true (Bool.and_eq_true_iff.mp h).1

lemma digitChar10_le (n : Nat) : digitChar10 n ≤ '9' := by
  have h := digitChar10_isDigit n
  unfold isAsciiDigit at h
  exact of_decide_eq_true (Bool.and_eq_true_iff.mp h).2

lemma isIso8601_isoformat (dt : DateTime) : isIso8601 (isoformat dt) = true := by
  unfold isIso8601 isoformat isoShape pad4 pad2 pad6
  rcases dt with ⟨y, mo, d, h, mi, s, us⟩
  by_cases hus : us = 0 <;>
    simp [hus, isAsciiDigit, digitChar10_ge, digitChar10_le, List.all]

lemma runSys_count (evs : List SysEvent) : ∀ s : ServerState,
    (runSys s evs).message_count = s.message_count + numRecv evs := by
  induction evs with
  | nil => intro s; rfl
  | cons e rest ih =>
    intro s
    have h : runSys s (e :: rest) = runSys (sysStep s e) rest := rfl
    rw [h, ih]
    rcases e with id | id | id
    · simp [sysStep, numRecv]
    · simp [sysStep, numRecv]
      omega
    · simp [sysStep, numRecv]

lemma reg_connects (ids : List Nat) : ∀ s : ServerState,
    (runSys s (ids.map SysEvent.connect)).connected_clients =
      s.connected_clients ∪ ids.toFinset := by
  induction ids with
  | nil => intro s; simp [runSys]
  | cons a rest ih =>
    intro s
    have h : runSys s ((a :: rest).map SysEvent.connect) =
        runSys (sysStep s (.connect a)) (rest.map SysEvent.connect) := rfl
    rw [h, ih]
    ext x
    simp [sysStep]
    try tauto

lemma reg_disconnects (ids : List Nat) : ∀ s : ServerState,
    (runSys s (ids.map SysEvent.disconnect)).connected_clients =
      s.connected_clients \ ids.toFinset := by
  induction ids with
  | nil => intro s; simp [runSys]
  | cons a rest ih =>
    intro s
    have h : runSys s ((a :: rest).map SysEvent.disconnect) =
        runSys (sysStep s (.disconnect a)) (rest.map SysEvent.disconnect) := rfl
    rw [h, ih]
    ext x
    simp [sysStep]
    try tauto

lemma counterTrace_lt (evs : List SysEvent) : ∀ s : ServerState,
    ∀ x ∈ counterTrace s evs, s.message_count < x := by
  induction evs with
  | nil => intro s x hx; simp [counterTrace] at hx
  | cons e rest ih =>
    intro s x hx
    rcases e with id | id | id
    · simp only [counterTrace] at hx
      exact ih (sysStep s (.connect id)) x hx
    · simp only [counterTrace] at hx
      rcases List.mem_cons.mp hx with h | h
      · subst h; simp [sysStep]
      · have h2 := ih (sysStep s (.recvMsg id)) x h
        simp [sysStep] at h2
        omega
    · simp only [counterTrace] at hx
      exact ih (sysStep s (.disconnect id)) x hx

lemma counterTrace_pairwise (evs : List SysEvent) : ∀ s : ServerState,
    List.Pairwise (fun a b => a < b) (counterTrace s evs) := by
  induction evs with
  | nil => intro s; simp [counterTrace]
  | cons e rest ih =>
    intro s
    rcases e with id | id | id
    · simp only [counterTrace]; exact ih _
    · simp only [counterTrace]
      refine List.pairwise_cons.mpr ⟨?_, ih _⟩
      intro b hb
      exact counterTrace_lt rest (sysStep s (.recvMsg id)) b hb
    · simp only [counterTrace]; exact ih _

lemma isStrEq_true_iff (v : Json) (s : String) : isStrEq v s = true ↔ v = Json.str s := by
  cases v <;> simp [isStrEq]

/-- Claim C1: for every decoded structured message whose top level has
"op" = "publish" and whose "msg" contains both "latitude" and
"longitude" keys, the extraction yields the top-level "topic"
(defaulting to the sentinel `"N/A"` when absent), the latitude and
longitude values verbatim, and an altitude value exactly when "msg"
contains an "altitude" key. -/
theorem c1_telemetry_extraction (kvs mkvs : List (String × Json)) (lat lon : Json)
    (hop : jsonLookup kvs "op" = some (Json.str "publish"))
    (hmsg : jsonLookup kvs "msg" = some (Json.obj mkvs))
    (hlat : jsonLookup mkvs "latitude" = some lat)
    (hlon : jsonLookup mkvs "longitude" = some lon) :
    extractGPS (Json.obj kvs) =
      .ok (some ⟨(jsonLookup kvs "topic").getD (Json.str "N/A"), lat, lon,
        jsonLookup mkvs "altitude"⟩) ∧
    ∀ g : GPSData, extractGPS (Json.obj kvs) = .ok (some g) →
      (g.altitude.isSome ↔ (jsonLookup mkvs "altitude").isSome) := by
  have h1 : extractGPS (Json.obj kvs) =
      .ok (some ⟨(jsonLookup kvs "topic").getD (Json.str "N/A"), lat, lon,
        jsonLookup mkvs "altitude"⟩) := by
    unfold extractGPS
    cases halt : jsonLookup mkvs "altitude" <;>
      simp [pyContains, pyIndex, pyGetD, hop, hmsg, hlat, hlon, halt, isStrEq]
  refine ⟨h1, ?_⟩
  intro g hg
  have h2 := h1.symm.trans hg
  simp only [Except.ok.injEq, Option.some.injEq] at h2
  rw [← h2]

lemma isStrEq_false_of_ne {v : Json} {s : String} (h : v ≠ Json.str s) :
    isStrEq v s = false := by
  cases hb : isStrEq v s
  · rfl
  · exact absurd ((isStrEq_true_iff v s).mp hb) h

lemma extractGPS_ok_none (kvs : List (String × Json))
    (h : jsonLookup kvs "op" ≠ some (Json.str "publish") ∨
      jsonLookup kvs "msg" = none ∨
      ∃ mkvs : List (String × Json), jsonLookup kvs "msg" = some (Json.obj mkvs) ∧
        (jsonLookup mkvs "latitude" = none ∨ jsonLookup mkvs "longitude" = none)) :
    extractGPS (Json.obj kvs) = .ok none := by
  rcases h with hop | hmsg | ⟨mkvs, hm, hll⟩
  · cases hv : jsonLookup kvs "op" with
    | none => unfold extractGPS; simp [pyContains, hv]
    | some v =>
      have hne : v ≠ Json.str "publish" := by
        intro he; exact hop (by rw [hv, he])
      unfold extractGPS
      simp [pyContains, pyIndex, hv, isStrEq_false_of_ne hne]
  · cases hv : jsonLookup kvs "op" with
    | none => unfold extractGPS; simp [pyContains, hv]
    | some v =>
      cases hb : isStrEq v "publish"
      · unfold extractGPS
        simp [pyContains, pyIndex, hv, hb]
      · unfold extractGPS
        simp [pyContains, pyIndex, hv, hb, hmsg]
  · cases hv : jsonLookup kvs "op" with
    | none => unfold extractGPS; simp [pyContains, hv]
    | some v =>
      cases hb : isStrEq v "publish"
      · unfold extractGPS
        simp [pyContains, pyIndex, hv, hb]
      · rcases hll with hlat | hlon
        · unfold extractGPS
          simp [pyContains, pyIndex, hv, hb, hm, hlat]
        · cases hlat : jsonLookup mkvs "latitude" with
          | none =>
            unfold extractGPS
            simp [pyContains, pyIndex, hv, hb, hm, hlat]
          | some lv =>
            unfold extractGPS
            simp [pyContains, pyIndex, hv, hb, hm, hlat, hlon]

/-- Claim C4 (amended): a decoded structured message that misses the
telemetry convention because "op" is absent or not "publish", or
"msg" is absent, or "msg" is a structure lacking "latitude" or
"longitude", produces no extraction and the Handler proceeds (display
only, no error, loop still reading).  (As originally stated the claim
also covered a present non-structure "msg", where the code instead
raises `TypeError`; see the counterexample.) -/
theorem c4_nonmatching_shapes (kvs : List (String × Json))
    (h : jsonLookup kvs "op" ≠ some (Json.str "publish") ∨
      jsonLookup kvs "msg" = none ∨
      ∃ mkvs : List (String × Json), jsonLookup kvs "msg" = some (Json.obj mkvs) ∧
        (jsonLookup mkvs "latitude" = none ∨ jsonLookup mkvs "longitude" = none)) :
    extractGPS (Json.obj kvs) = .ok none ∧
    (∀ (c : Nat) (p : Payload) (now : DateTime),
      processMessage false c ⟨p, some (Json.obj kvs), now, none⟩ =
        ⟨c + 1, true, none, none, [], .normal⟩) ∧
    (∀ (c : Nat) (p : Payload) (now : DateTime),
      runHandler false c [.msg ⟨p, some (Json.obj kvs), now, none⟩] =
        ⟨c + 1, [], .reading⟩) := by
  have h1 := extractGPS_ok_none kvs h
  refine ⟨h1, ?_, ?_⟩
  · intro c p now
    simp [processMessage, h1, ackPhase]
  · intro c p now
    simp [runHandler, processMessage, h1, ackPhase]

/-- Claim C4, counterexample to the original statement: the decoded
message `{"op": "publish", "msg": 5}` does not match the convention
("msg" is not a structure), yet the extraction block raises
`TypeError` (`'latitude' in 5`), the Handler terminates, and a
further queued frame is never read. -/
theorem c4_counterexample :
    extractGPS (Json.obj [("op", Json.str "publish"), ("msg", Json.num 5)]) =
      .error .typeError ∧
    runHandler false 0
      [.msg ⟨.text "a", some (Json.obj [("op", Json.str "publish"), ("msg", Json.num 5)]),
        ⟨2024, 5, 6, 7, 8, 9, 0⟩, none⟩,
       .msg ⟨.text "b", none, ⟨2024, 5, 6, 7, 8, 10, 0⟩, none⟩] =
      ⟨1, [], .errored .typeError⟩ := by
  exact ⟨rfl, rfl⟩

/-- Claim C1, witness: the two telemetry inputs from the spec. -/
theorem c1_telemetry_extraction_witness :
    extractGPS (Json.obj [("op", Json.str "publish"), ("topic", Json.str "/gps"),
      ("msg", Json.obj [("latitude", Json.num 1.23), ("longitude", Json.num 4.56)])]) =
      .ok (some ⟨Json.str "/gps", Json.num 1.23, Json.num 4.56, none⟩) ∧
    extractGPS (Json.obj [("op", Json.str "publish"), ("topic", Json.str "/gps"),
      ("msg", Json.obj [("latitude", Json.num 1.0), ("longitude", Json.num 2.0),
        ("altitude", Json.num 50)])]) =
      .ok (some ⟨Json.str "/gps", Json.num 1.0, Json.num 2.0, some (Json.num 50)⟩) := by
  constructor
  · exact (c1_telemetry_extraction
      [("op", Json.str "publish"), ("topic", Json.str "/gps"),
        ("msg", Json.obj [("latitude", Json.num 1.23), ("longitude", Json.num 4.56)])]
      [("latitude", Json.num 1.23), ("longitude", Json.num 4.56)]
      (Json.num 1.23) (Json.num 4.56) rfl rfl rfl rfl).1
  · exact (c1_telemetry_extraction
      [("op", Json.str "publish"), ("topic", Json.str "/gps"),
        ("msg", Json.obj [("latitude", Json.num 1.0), ("longitude", Json.num 2.0),
          ("altitude", Json.num 50)])]
      [("latitude", Json.num 1.0), ("longitude", Json.num 2.0), ("altitude", Json.num 50)]
      (Json.num 1.0) (Json.num 2.0) rfl rfl rfl rfl).1

/-- Claim C4, witness: a publish envelope with no "msg" key is
ignored by the extraction and the loop keeps reading. -/
theorem c4_nonmatching_shapes_witness :
    extractGPS (Json.obj [("op", Json.str "publish")]) = .ok none ∧
    runHandler false 0 [.msg ⟨.text "a", some (Json.obj [("op", Json.str "publish")]),
      ⟨2024, 5, 6, 7, 8, 9, 0⟩, none⟩] = ⟨1, [], .reading⟩ := by
  have h := c4_nonmatching_shapes [("op", Json.str "publish")] (Or.inr (Or.inl rfl))
  exact ⟨h.1, h.2.2 0 (.text "a") ⟨2024, 5, 6, 7, 8, 9, 0⟩⟩

lemma processMessage_ok_cases (respond : Bool) (c : Nat) (ev : MsgEvent)
    (hok : processingOk ev = true) :
    ∃ (sh : Bool) (g : Option GPSData) (raw : Option String),
      processMessage respond c ev =
        ackPhase respond (c + 1) ev.now ev.sendResult sh g raw := by
  rcases hd : ev.decoded with _ | data
  · rcases hr : rawTextDisplay ev.payload with e | s
    · exfalso
      unfold processingOk at hok
      rw [hd] at hok
      simp [hr] at hok
    · exact ⟨false, none, some s, by simp [processMessage, hd, hr]⟩
  · rcases hx : extractGPS data with e | g
    · exfalso
      unfold processingOk at hok
      rw [hd] at hok
      simp [hx] at hok
    · exact ⟨true, g, none, by simp [processMessage, hd, hx]⟩

/-- Claim C2, counterexample to the original statement: with
acknowledgment mode on, the structured message
`{"op": "publish", "msg": 5}` is received (the counter is assigned 1)
but its processing raises `TypeError` before the acknowledgment path,
so no acknowledgment at all is sent for it. -/
theorem c2_counterexample :
    processMessage true 0 ⟨.text "x",
      some (Json.obj [("op", Json.str "publish"), ("msg", Json.num 5)]),
      ⟨2024, 5, 6, 7, 8, 9, 0⟩, none⟩ =
      ⟨1, true, none, none, [], .raised .typeError⟩ := rfl

/-- Claim C2 (amended): with acknowledgment mode enabled, every
received message whose display/extraction phase completes without
raising and whose send succeeds results in exactly one acknowledgment
on the same connection, with status "received", message_id equal to
the sequence number just assigned to that message, and timestamp the
ISO-8601 rendering of the current time. -/
theorem c2_acknowledgment (c : Nat) (ev : MsgEvent)
    (hok : processingOk ev = true) (hsend : ev.sendResult = none) :
    (processMessage true c ev).acks = [⟨"received", c + 1, isoformat ev.now⟩] ∧
    (processMessage true c ev).count = c + 1 ∧
    isIso8601 (isoformat ev.now) = true := by
  refine ⟨?_, processMessage_count true c ev, isIso8601_isoformat ev.now⟩
  obtain ⟨sh, g, raw, h⟩ := processMessage_ok_cases true c ev hok
  rw [h, hsend]
  simp [ackPhase]

/-- Claim C2, witness: a plain text message with acknowledgment mode
on receives the single expected acknowledgment. -/
theorem c2_acknowledgment_witness :
    (processMessage true 0
      ⟨.text "hello world", none, ⟨2024, 5, 6, 7, 8, 9, 0⟩, none⟩).acks =
      [⟨"received", 1, isoformat ⟨2024, 5, 6, 7, 8, 9, 0⟩⟩] ∧
    isIso8601 (isoformat ⟨2024, 5, 6, 7, 8, 9, 0⟩) = true := by
  have h := c2_acknowledgment 0
    ⟨.text "hello world", none, ⟨2024, 5, 6, 7, 8, 9, 0⟩, none⟩ rfl rfl
  exact ⟨h.1, h.2.2⟩

/-- Claim C5, counterexample to the original statement: when the
acknowledgment send fails (`ConnectionClosed(1001, "bye")` while a
second frame is still queued), the handler leaves the read loop at
once — the final counter is 1 and the queued second frame is never
read, so no "next read attempt" happens. -/
theorem c5_counterexample :
    runHandler true 0
      [.msg ⟨.text "hi", none, ⟨2024, 5, 6, 7, 8, 9, 0⟩, some (1001, "bye")⟩,
       .msg ⟨.text "again", none, ⟨2024, 5, 6, 7, 8, 10, 0⟩, none⟩] =
      ⟨1, [], .closed 1001 "bye"⟩ := rfl

/-- Claim C5 (amended): a failing acknowledgment send raises
`ConnectionClosed`, which is absorbed at the Handler level (the
handler ends through its connection-closed path and the Registry
cleanup still runs) but aborts the read loop immediately: no further
frame of that connection is processed and no acknowledgment is
delivered. -/
theorem c5_send_failure_aborts (c : Nat) (ev : MsgEvent) (code : Nat)
    (reason : String) (rest : List ConnEvent) (R : Finset Nat) (conn : Nat)
    (hok : processingOk ev = true)
    (hsend : ev.sendResult = some (code, reason)) (hconn : conn ∉ R) :
    runHandler true c (.msg ev :: rest) = ⟨c + 1, [], .closed code reason⟩ ∧
    (handleClient R conn true c (.msg ev :: rest)).registry = R := by
  obtain ⟨sh, g, raw, h⟩ := processMessage_ok_cases true c ev hok
  constructor
  · rw [show runHandler true c (.msg ev :: rest) =
        (match (processMessage true c ev).exit with
          | .normal =>
            ⟨(runHandler true (processMessage true c ev).count rest).count,
              (processMessage true c ev).acks ++
                (runHandler true (processMessage true c ev).count rest).acks,
              (runHandler true (processMessage true c ev).count rest).termination⟩
          | .connClosed cd r => ⟨(processMessage true c ev).count,
              (processMessage true c ev).acks, .closed cd r⟩
          | .raised e => ⟨(processMessage true c ev).count,
              (processMessage true c ev).acks, .errored e⟩ : HandlerResult) from rfl]
    rw [h, hsend]
    simp [ackPhase]
  · simp [handleClient, Finset.erase_insert hconn]

/-- Claim C5, witness: concrete send failure on a text frame. -/
theorem c5_send_failure_aborts_witness :
    runHandler true 0
      [.msg ⟨.text "hi", none, ⟨2024, 5, 6, 7, 8, 9, 0⟩, some (1006, "gone")⟩] =
      ⟨1, [], .closed 1006 "gone"⟩ ∧
    (handleClient ∅ 3 true 0
      [.msg ⟨.text "hi", none, ⟨2024, 5, 6, 7, 8, 9, 0⟩, some (1006, "gone")⟩]).registry =
      ∅ := by
  exact c5_send_failure_aborts 0
    ⟨.text "hi", none, ⟨2024, 5, 6, 7, 8, 9, 0⟩, some (1006, "gone")⟩ 1006 "gone" [] ∅ 3
    rfl rfl (by decide)

/-- Claim C6 (amended): a TEXT payload that fails structured decode
is handled as raw text: no exception is raised, the counter is
incremented by exactly 1, and the displayed text is the first 200
characters of the payload with "..." appended exactly when the
payload is longer than 200 characters.  (As originally stated the
claim covered every payload failing decode; a binary payload instead
raises `TypeError` in the display expression — see the
counterexample.) -/
theorem c6_raw_text_path (respond : Bool) (c : Nat) (s : String) (now : DateTime) :
    processMessage respond c ⟨.text s, none, now, none⟩ =
      ⟨c + 1, false, none,
        some (s.take 200 ++ (if s.length > 200 then "..." else "")),
        if respond then [⟨"received", c + 1, isoformat now⟩] else [], .normal⟩ := by
  cases respond <;> simp [processMessage, rawTextDisplay, ackPhase]

/-- Claim C6, counterexample to the original statement: a binary
payload that fails structured decode is not shown as raw text without
error — the `bytes + str` concatenation of the display expression at
line 47 raises `TypeError`, so the iteration ends raising rather than
raising no error. -/
theorem c6_counterexample :
    processMessage false 0
      ⟨.binary [104, 105], none, ⟨2024, 5, 6, 7, 8, 9, 0⟩, none⟩ =
      ⟨1, false, none, none, [], .raised .typeError⟩ := rfl

/-- Claim C9: the counter is incremented as the very first act on
every received frame, before decode, classification, extraction or
acknowledgment, and it is never rolled back: even a frame whose
processing raises (terminating the Handler) contributes exactly 1. -/
theorem c9_counter_pre_increment :
    (∀ (respond : Bool) (c : Nat) (ev : MsgEvent),
      (processMessage respond c ev).count = c + 1) ∧
    (∀ (respond : Bool) (c : Nat) (ev : MsgEvent) (rest : List ConnEvent) (e : PyErr),
      (processMessage respond c ev).exit = .raised e →
      (runHandler respond c (.msg ev :: rest)).count = c + 1) := by
  refine ⟨processMessage_count, ?_⟩
  intro respond c ev rest e h
  have hcnt := processMessage_count respond c ev
  rcases hstep : processMessage respond c ev with ⟨cnt, sh, g, raw, acks, ex⟩
  rw [hstep] at hcnt h
  simp only at hcnt h
  subst hcnt
  subst h
  simp [runHandler, hstep]

/-- Claim C9, witness: a binary frame that raises during display
still bumps the counter from 0 to 1. -/
theorem c9_counter_pre_increment_witness :
    (runHandler false 0
      [.msg ⟨.binary [0], none, ⟨2024, 5, 6, 7, 8, 9, 0⟩, none⟩]).count = 1 := by
  exact c9_counter_pre_increment.2 false 0
    ⟨.binary [0], none, ⟨2024, 5, 6, 7, 8, 9, 0⟩, none⟩ [] .typeError rfl

/-- Claim C3: starting from the module-load state, the counter after
any trace equals the number of received messages in it (K after K
receptions, one increment per message); the counter is non-decreasing
along every trace; and the sequence of values it takes is strictly
increasing with no repeats. -/
theorem c3_counter_invariant :
    (∀ evs : List SysEvent, (runSys initState evs).message_count = numRecv evs) ∧
    (∀ (s : ServerState) (evs : List SysEvent),
      s.message_count ≤ (runSys s evs).message_count) ∧
    (∀ (s : ServerState) (evs : List SysEvent),
      List.Pairwise (fun a b => a < b) (counterTrace s evs)) := by
  refine ⟨?_, ?_, fun s evs => counterTrace_pairwise evs s⟩
  · intro evs
    rw [runSys_count]
    simp [initState]
  · intro s evs
    rw [runSys_count]
    exact Nat.le_add_right _ _

/-- Claim C7 (amended): every handler termination path runs the same
cleanup, removing exactly its own connection (so a fresh connection
leaves the registry as it found it); N connects followed by the same
N disconnects in any order return the registry count to 0; each
disconnect of a present connection decreases the count by exactly 1;
an ABNORMAL close's code and reason are observable by the handler
(line 59), while a clean close (code 1000/1001) ends the read loop
normally with its code and reason never observed.  (As originally
stated the claim made the code and reason of a graceful close
observable; the `websockets` iterator swallows `ConnectionClosedOK`,
so they are not — see the counterexample.) -/
theorem c7_cleanup_invariant :
    (∀ (ids perm : List Nat), perm.Perm ids →
      (runSys initState (ids.map SysEvent.connect ++
        perm.map SysEvent.disconnect)).connected_clients.card = 0) ∧
    (∀ (s : ServerState) (id : Nat), id ∈ s.connected_clients →
      (sysStep s (.disconnect id)).connected_clients.card + 1 =
        s.connected_clients.card) ∧
    (∀ (R : Finset Nat) (conn : Nat) (respond : Bool) (c : Nat) (evs : List ConnEvent),
      conn ∉ R → (handleClient R conn respond c evs).registry = R) ∧
    (∀ (respond : Bool) (c code : Nat) (reason : String) (rest : List ConnEvent),
      cleanClose code = false →
      (runHandler respond c (.close code reason :: rest)).termination =
        .closed code reason) ∧
    (∀ (respond : Bool) (c code : Nat) (reason : String) (rest : List ConnEvent),
      cleanClose code = true →
      (runHandler respond c (.close code reason :: rest)).termination =
        .finished) := by
  refine ⟨?_, ?_, ?_, ?_, ?_⟩
  case refine_4 =>
    intro respond c code reason rest h
    simp [runHandler, h]
  case refine_5 =>
    intro respond c code reason rest h
    simp [runHandler, h]
  · intro ids perm hperm
    have h : runSys initState (ids.map SysEvent.connect ++ perm.map SysEvent.disconnect) =
        runSys (runSys initState (ids.map SysEvent.connect))
          (perm.map SysEvent.disconnect) := by
      simp [runSys, List.foldl_append]
    have htf : perm.toFinset = ids.toFinset := by
      ext x
      simp [List.mem_toFinset, hperm.mem_iff]
    rw [h, reg_disconnects, reg_connects, htf]
    simp [initState]
  · intro s id hid
    have hpos : 0 < s.connected_clients.card := Finset.card_pos.mpr ⟨id, hid⟩
    simp [sysStep, Finset.card_erase_of_mem hid]
    omega
  · intro R conn respond c evs hconn
    simp [handleClient, Finset.erase_insert hconn]

/-- Claim C7, counterexample to the original statement: a graceful
client close with the explicit code 1000 and a reason ends the read
loop normally — the handler observes neither (termination is not the
caught-close outcome carrying them) — though the registry cleanup
still runs. -/
theorem c7_counterexample :
    (runHandler false 0 [.close 1000 "normal closure"]).termination = .finished ∧
    (runHandler false 0 [.close 1000 "normal closure"]).termination ≠
      .closed 1000 "normal closure" ∧
    (handleClient ∅ 4 false 0 [.close 1000 "normal closure"]).registry = ∅ := by
  exact ⟨rfl, by decide, by decide⟩

/-- Claim C7, witness: two connects then the two disconnects in
reversed order; a disconnect from a one-element registry; a full
client lifecycle on an empty registry; an abnormal close with code
1006; a clean close with code 1001. -/
theorem c7_cleanup_invariant_witness :
    (runSys initState ([1, 2].map SysEvent.connect ++
      [2, 1].map SysEvent.disconnect)).connected_clients.card = 0 ∧
    (sysStep ⟨{1}, 0⟩ (.disconnect 1)).connected_clients.card + 1 =
      ({1} : Finset Nat).card ∧
    (handleClient ∅ 7 true 0 []).registry = ∅ ∧
    (runHandler false 0 [.close 1006 "abnormal"]).termination =
      .closed 1006 "abnormal" ∧
    (runHandler false 0 [.close 1001 "going away"]).termination = .finished := by
  exact ⟨c7_cleanup_invariant.1 [1, 2] [2, 1] (by decide),
    c7_cleanup_invariant.2.1 ⟨{1}, 0⟩ 1 (by decide),
    c7_cleanup_invariant.2.2.1 ∅ 7 true 0 [] (by decide),
    c7_cleanup_invariant.2.2.2.1 false 0 1006 "abnormal" [] rfl,
    c7_cleanup_invariant.2.2.2.2 false 0 1001 "going away" [] rfl⟩

/-- Claim C8: the label assigned on accept is exactly "Client-"
followed by the registry's cardinality plus one at that moment, and
on the trace connect-1, disconnect-1, connect-2 the two distinct
connections 1 and 2 both receive the label "Client-1". -/
theorem c8_duplicate_labels :
    (∀ (s : ServerState) (id : Nat) (evs : List SysEvent),
      (runWithLabels s (.connect id :: evs)).2.head? =
        some (id, clientId s.connected_clients.card)) ∧
    (∀ n : Nat, clientId n = "Client-" ++ toString (n + 1)) ∧
    (runWithLabels initState [.connect 1, .disconnect 1, .connect 2]).2 =
      [(1, "Client-1"), (2, "Client-1")] := by
  refine ⟨?_, fun n => rfl, by decide⟩
  intro s id evs
  simp [runWithLabels]
